import Mathlib

/-
  Shallow embedding of src/lib/telemetry.js, a browser-side telemetry gate
  that conditionally loads and invokes third-party analytics and
  error-reporting scripts, subject to the Do-Not-Track browser preference.

  Modelling conventions:
  - The three DNT environment flags (navigator.doNotTrack,
    navigator.msDoNotTrack, window.doNotTrack) form a `Flags` record of
    optional strings; they are passed explicitly to every operation that
    reads them, since the JS code re-reads the live environment per call.
  - JS objects touched by the program are modelled by `JsObj`, a record of
    the optional fields the program reads or writes.
  - A gtag invocation is a list of arguments (`GtagCall`), matching the
    variadic gtag interface.
  - The tracker closure returned by configureBoundTracker is reified as the
    `Tracker` datatype (either the NO_OP constant or a closure capturing
    the construction-time groups value); `runTracker` is its call
    semantics, returning the command issued to the analytics channel, if
    any.
  - The host performance facility is a list of named entries in
    chronological order plus an abstract duration function for measures.
  - Page-level mutable state (the one-shot guard, window.dataLayer,
    window.gtag presence, requested script URLs, the installed
    telemetry.performance implementation) is the record `TState`;
    operations are state transformers.
-/

/-- Environment snapshot of the three Do-Not-Track flags at one moment. -/
structure Flags where
  navDoNotTrack : Option String
  msDoNotTrack : Option String
  winDoNotTrack : Option String
deriving DecidableEq

/-- Embeds function doNotTrack: true when any of the three flags is the
string "1". -/
def doNotTrack (f : Flags) : Bool :=
  f.navDoNotTrack == some "1" ||
  f.msDoNotTrack == some "1" ||
  f.winDoNotTrack == some "1"

/-- JS object model: the optional fields read or written by the program. -/
structure JsObj where
  groups : Option String := none
  send_to : Option String := none
  event_category : Option String := none
  value : Option Int := none
  version : Option String := none
  custom_map : List (String × String) := []
deriving DecidableEq

/-- One argument of a gtag invocation. -/
inductive GtagArg where
  | str (s : String)
  | obj (o : JsObj)
  | date
deriving DecidableEq

/-- A gtag invocation: the list of arguments passed to the channel. -/
abbrev GtagCall := List GtagArg

/-- Embeds the constant MOZILLA_RESEARCH_TRACKER. -/
def MOZILLA_RESEARCH_TRACKER : String := "UA-77033033-6"

/-- Embeds the constant CURRENT_VERSION. -/
def CURRENT_VERSION : String := "1.1.0"

/-- Tracker value returned by configureBoundTracker: either the NO_OP
constant or the trackingFunction closure capturing the construction-time
groups value. -/
inductive Tracker where
  | noop
  | bound (groups : Option String)
deriving DecidableEq

/-- Embeds the body `if (groups) \x7b options.send_to = groups; \x7d` of
trackingFunction: groups is merged only when truthy (non-empty string). -/
def mergeGroups (groups : Option String) (o : JsObj) : JsObj :=
  match groups with
  | some g => if g = "" then o else { o with send_to := some g }
  | none => o

/-- Call semantics of a tracker value: embeds trackingFunction (per-call
Do-Not-Track re-check, options defaulting, groups merge, forward to the
channel) and the NO_OP constant (never issues anything). The result is the
command issued to the underlying analytics channel, if any. -/
def runTracker (t : Tracker) (f : Flags) (command label : String)
    (options : Option JsObj) : Option GtagCall :=
  match t with
  | .noop => none
  | .bound groups =>
    if doNotTrack f then none
    else
      some [GtagArg.str command, GtagArg.str label,
            GtagArg.obj (mergeGroups groups (options.getD {}))]

/-- Embeds configureBoundTracker: under Do-Not-Track returns NO_OP and
issues nothing; otherwise issues one config command to the channel and
returns the bound trackingFunction. First component: the commands issued
to the analytics channel during configuration. -/
def configureBoundTracker (f : Flags) (trackingId : String)
    (options : Option JsObj) : List GtagCall × Tracker :=
  if doNotTrack f then ([], .noop)
  else
    let opts := options.getD {}
    ([[GtagArg.str "config", GtagArg.str trackingId, GtagArg.obj opts]],
     .bound opts.groups)

/-- One entry of the host performance timeline (a mark or a measure),
carrying a name and a duration in milliseconds. -/
structure PerfEntry where
  name : String
  duration : ℚ
deriving DecidableEq

/-- Host performance facility: the entry timeline in chronological order,
plus the duration the host monotonic clock would report for a measure
between two named marks (treated as an oracle, since the actual clock is
outside the program). -/
structure HostPerf where
  entries : List PerfEntry
  measureDuration : String → String → String → ℚ

/-- Embeds the host call performance.mark(name): records an entry of
duration 0 under that name. -/
def hostMark (hp : HostPerf) (name : String) : HostPerf :=
  { hp with entries := hp.entries ++ [{ name := name, duration := 0 }] }

/-- Embeds the host call performance.measure(name, startMark, endMark):
appends an entry under that name whose duration the host clock reports. -/
def hostMeasure (hp : HostPerf) (name startMark endMark : String) : HostPerf :=
  { hp with entries :=
      hp.entries ++ [{ name := name,
                       duration := hp.measureDuration name startMark endMark }] }

/-- Embeds the host call performance.getEntriesByName(name): entries with
that name, in chronological order. -/
def getEntriesByName (hp : HostPerf) (name : String) : List PerfEntry :=
  hp.entries.filter (fun e => e.name == name)

/-- Embeds Math.round on a duration: round half toward positive. -/
def jsRound (q : ℚ) : Int := Int.floor (q + 1 / 2)

/-- The value of telemetry.performance: either the default NO_OP pair or
the implementation installed by setupPerformanceAPI, closed over its
tracker. -/
inductive PerfAPI where
  | noop
  | installed (tracker : Tracker)
deriving DecidableEq

/-- Call semantics of telemetry.performance.mark(name): the default is a
no-op; the installed version re-checks Do-Not-Track, then records a host
mark. -/
def runMark (api : PerfAPI) (f : Flags) (hp : HostPerf) (name : String) :
    HostPerf :=
  match api with
  | .noop => hp
  | .installed _ => if doNotTrack f then hp else hostMark hp name

/-- Call semantics of telemetry.performance.measure(name, a, b): the
default is a no-op; the installed version re-checks Do-Not-Track, records
a host measure, reads entry [0] of getEntriesByName(name), rounds its
duration, and forwards one event through the tracker. Result: the updated
host performance state and the command issued to the analytics channel,
if any. -/
def runMeasure (api : PerfAPI) (f : Flags) (hp : HostPerf)
    (name startMark endMark : String) : HostPerf × Option GtagCall :=
  match api with
  | .noop => (hp, none)
  | .installed tracker =>
    if doNotTrack f then (hp, none)
    else
      let hpNew := hostMeasure hp name startMark endMark
      match getEntriesByName hpNew name with
      | [] => (hpNew, none)
      | entry :: _ =>
        (hpNew,
         runTracker tracker f "event" name
           (some { event_category := some "Performance",
                   value := some (jsRound entry.duration) }))

/-- A script element, as the set of case-sensitive JS property assignments
the program performed on it. -/
structure ScriptElement where
  props : List (String × String)
deriving DecidableEq

/-- Reads a JS property of a script element; JS property names are
case-sensitive. -/
def getProp (el : ScriptElement) (key : String) : Option String :=
  (el.props.find? (fun p => p.1 == key)).map (fun p => p.2)

/-- Per the HTML standard, the CORS mode of a script element is controlled
by its reflected IDL attribute crossOrigin (equivalently the content
attribute set through setAttribute); a plain JS property under any other
case-sensitive name is an expando and does not affect the fetch. A result
of none means the script is fetched as a classic request with no CORS
mode and no credentials mode. -/
def effectiveCrossOrigin (el : ScriptElement) : Option String :=
  getProp el "crossOrigin"

/-- Embeds injectScript(src, callback): the element it creates, with the
two property assignments `script.src = src` and
`script.crossorigin = "anonymous"` the source performs. Note the function
takes no privacy flags: it performs no Do-Not-Track check. -/
def injectScript (src : String) : ScriptElement :=
  { props := [("src", src), ("crossorigin", "anonymous")] }

/-- Page-level mutable state of the module. -/
structure TState where
  startCalled : Bool
  dataLayer : Option (List GtagCall)
  gtagDefined : Bool
  scripts : List String
  perfAPI : PerfAPI
deriving DecidableEq

/-- State effect of injectScript: appends the script request to the page,
unconditionally (no privacy check — no Flags argument). -/
def injectScriptS (s : TState) (src : String) : TState :=
  { s with scripts := s.scripts ++ [src] }

/-- Embeds the telemetry._gtag getter `window.gtag || NO_OP` together with
the effect of the installed gtag stub (pushing its arguments onto
window.dataLayer): when window.gtag is absent the command is dropped. -/
def windowGtag (s : TState) (c : GtagCall) : TState :=
  if s.gtagDefined then
    { s with dataLayer := some (s.dataLayer.getD [] ++ [c]) }
  else s

/-- URL of the analytics script, built as in the source by appending the
tracker constant. -/
def gtagScriptUrl : String :=
  "https://www.googletagmanager.com/gtag/js?id=" ++ MOZILLA_RESEARCH_TRACKER

/-- URL of the error-reporting library requested by setupErrorLogging. -/
def ravenScriptUrl : String := "https://cdn.ravenjs.com/3.22.3/console/raven.min.js"

/-- Embeds setupAnalytics (invoked once at module load): under
Do-Not-Track, nothing; otherwise ensures window.dataLayer and window.gtag
are defined, pushes the initial js command through gtag, and requests the
analytics script. -/
def setupAnalytics (f : Flags) (s : TState) : TState :=
  if doNotTrack f then s
  else
    let s1 := { s with dataLayer := some (s.dataLayer.getD []),
                       gtagDefined := true }
    let s2 := windowGtag s1 [GtagArg.str "js", GtagArg.date]
    injectScriptS s2 gtagScriptUrl

/-- State effect of setupErrorLogging: under Do-Not-Track, nothing;
otherwise requests the error-reporting script. The asynchronous load
completion is modelled separately by ravenCallback. -/
def setupErrorLogging (f : Flags) (s : TState) : TState :=
  if doNotTrack f then s else injectScriptS s ravenScriptUrl

/-- Completion report of a script load: a load error carrying the error
value, or success together with whether the expected Raven global is
present in window afterward. -/
inductive LoadResult where
  | failure (err : String)
  | success (ravenPresent : Bool)
deriving DecidableEq

/-- Observable outcome of the setupErrorLogging load callback. -/
structure ErrOutcome where
  warnings : Nat
  ravenConfigured : Bool
deriving DecidableEq

/-- Embeds the load callback inside setupErrorLogging: on error, one
warning and stop; on success without the Raven global, one warning and
stop; otherwise configure and install Raven. Total: no outcome throws. -/
def ravenCallback : LoadResult → ErrOutcome
  | .failure _ => { warnings := 1, ravenConfigured := false }
  | .success false => { warnings := 1, ravenConfigured := false }
  | .success true => { warnings := 0, ravenConfigured := true }

/-- The construction-time options literal passed by startAnalytics. -/
def mrOptions : JsObj :=
  { groups := some "MozillaResearch",
    custom_map := [("dimension1", "version")] }

/-- Embeds startAnalytics: configures the bound tracker for the fixed
tracker ID and sends the using_webvr_template event through it; both the
configuration command and the event go through telemetry._gtag. Returns
the updated state and the tracker. -/
def startAnalytics (f : Flags) (s : TState) : TState × Tracker :=
  let ct := configureBoundTracker f MOZILLA_RESEARCH_TRACKER (some mrOptions)
  let s1 := ct.1.foldl windowGtag s
  let ev := runTracker ct.2 f "event" "using_webvr_template"
              (some { version := some CURRENT_VERSION })
  let s2 := match ev with
            | some c => windowGtag s1 c
            | none => s1
  (s2, ct.2)

/-- Configuration object accepted by telemetry.start. -/
structure Config where
  errorLogging : Bool := false
  analytics : Bool := false
  performance : Bool := false
deriving DecidableEq

/-- Body of telemetry.start before the one-shot guard: error logging first
if requested, then analytics if requested, then — only inside the
analytics branch — the performance API. -/
def startBody (f : Flags) (cfg : Config) (s : TState) : TState :=
  let s1 := if cfg.errorLogging then setupErrorLogging f s else s
  if cfg.analytics then
    let r := startAnalytics f s1
    if cfg.performance then { r.1 with perfAPI := .installed r.2 } else r.1
  else s1

/-- Embeds telemetry.start = onlyOnce(body): the closure variable called
of onlyOnce is the startCalled field; a consumed guard makes the call a
complete no-op, otherwise the body runs (with config defaulting) and the
guard is consumed. -/
def telemetry.start (f : Flags) (cfg : Option Config) (s : TState) : TState :=
  if s.startCalled then s
  else { startBody f (cfg.getD {}) s with startCalled := true }

/-- State of the page right after the script tag for the module is
evaluated, before setupAnalytics runs. -/
def initState : TState :=
  { startCalled := false, dataLayer := none, gtagDefined := false,
    scripts := [], perfAPI := .noop }

/-- Flags with no Do-Not-Track signal set. -/
def fAllow : Flags := { navDoNotTrack := none, msDoNotTrack := none, winDoNotTrack := none }

/-- Flags with navigator.doNotTrack set to "1". -/
def fDeny : Flags := { navDoNotTrack := some "1", msDoNotTrack := none, winDoNotTrack := none }

/-- Empty host performance story with a zero clock, for concrete runs. -/
def hpEmpty : HostPerf := { entries := [], measureDuration := fun _ _ _ => 0 }

/-- Claim C4: doNotTrack returns true exactly when at least one of the
three flags equals the string "1"; when none does it returns false. As a
total Bool-valued function of the flags snapshot it has no side effects
and cannot throw. -/
theorem doNotTrack_iff (f : Flags) :
    doNotTrack f = true ↔
      (f.navDoNotTrack = some "1" ∨ f.msDoNotTrack = some "1" ∨
       f.winDoNotTrack = some "1") := by
  simp [doNotTrack, or_assoc]

/-- Claim C2: when Do-Not-Track holds at the call, configureBoundTracker
issues no config command and returns a tracker that does nothing for every
argument forever after; when it does not hold, exactly one config command
carrying the tracking ID and the options is issued and the bound tracker
is returned. -/
theorem configureBoundTracker_spec (f : Flags) (tid : String)
    (opts : Option JsObj) :
    (doNotTrack f = true →
      (configureBoundTracker f tid opts).1 = [] ∧
      ∀ (f2 : Flags) (c l : String) (o : Option JsObj),
        runTracker (configureBoundTracker f tid opts).2 f2 c l o = none) ∧
    (doNotTrack f = false →
      (configureBoundTracker f tid opts).1 =
        [[GtagArg.str "config", GtagArg.str tid, GtagArg.obj (opts.getD {})]] ∧
      (configureBoundTracker f tid opts).2 = .bound (opts.getD {}).groups) := by
  constructor
  · intro h
    simp [configureBoundTracker, h, runTracker]
  · intro h
    simp [configureBoundTracker, h]

/-- Witness for C2 at concrete inputs on both sides of the gate. -/
theorem configureBoundTracker_spec_witness :
    ((configureBoundTracker fDeny "UA-77033033-6" (some mrOptions)).1 = [] ∧
      ∀ (f2 : Flags) (c l : String) (o : Option JsObj),
        runTracker (configureBoundTracker fDeny "UA-77033033-6"
          (some mrOptions)).2 f2 c l o = none) ∧
    ((configureBoundTracker fAllow "UA-77033033-6" (some mrOptions)).1 =
        [[GtagArg.str "config", GtagArg.str "UA-77033033-6",
          GtagArg.obj mrOptions]] ∧
      (configureBoundTracker fAllow "UA-77033033-6" (some mrOptions)).2 =
        .bound (some "MozillaResearch")) :=
  ⟨(configureBoundTracker_spec fDeny "UA-77033033-6" (some mrOptions)).1 (by decide),
   (configureBoundTracker_spec fAllow "UA-77033033-6" (some mrOptions)).2 (by decide)⟩

/-- Claim C1: a tracker constructed while tracking was allowed re-checks
the gate on every invocation: under Do-Not-Track at the invocation nothing
is forwarded to the analytics channel; otherwise the call is forwarded
with the construction-time groups value merged into send_to whenever
groups was set to a truthy value. In particular such a tracker never sends
once the signal flips to disallowed. -/
theorem trackingFunction_spec (f0 f : Flags) (tid : String)
    (copts : Option JsObj) (command label : String) (eopts : Option JsObj)
    (h0 : doNotTrack f0 = false) :
    (doNotTrack f = true →
      runTracker (configureBoundTracker f0 tid copts).2 f command label eopts =
        none) ∧
    (doNotTrack f = false →
      runTracker (configureBoundTracker f0 tid copts).2 f command label eopts =
        some [GtagArg.str command, GtagArg.str label,
              GtagArg.obj (mergeGroups (copts.getD {}).groups (eopts.getD {}))]) ∧
    (∀ g : String, (copts.getD {}).groups = some g → g ≠ "" →
      (mergeGroups (copts.getD {}).groups (eopts.getD {})).send_to = some g) := by
  refine ⟨?_, ?_, ?_⟩
  · intro h
    simp [configureBoundTracker, h0, runTracker, h]
  · intro h
    simp [configureBoundTracker, h0, runTracker, h]
  · intro g hg hne
    simp [mergeGroups, hg, hne]

/-- Witness for C1: a tracker built under fAllow with the source options,
silent under fDeny, forwarding with merged send_to under fAllow. -/
theorem trackingFunction_spec_witness :
    (runTracker (configureBoundTracker fAllow "UA-77033033-6"
        (some mrOptions)).2 fDeny "event" "using_webvr_template" none = none) ∧
    (runTracker (configureBoundTracker fAllow "UA-77033033-6"
        (some mrOptions)).2 fAllow "event" "using_webvr_template" none =
      some [GtagArg.str "event", GtagArg.str "using_webvr_template",
            GtagArg.obj (mergeGroups (some "MozillaResearch") {})]) ∧
    (mergeGroups (some "MozillaResearch") {}).send_to = some "MozillaResearch" :=
  ⟨(trackingFunction_spec fAllow fDeny "UA-77033033-6" (some mrOptions)
      "event" "using_webvr_template" none (by decide)).1 (by decide),
   (trackingFunction_spec fAllow fAllow "UA-77033033-6" (some mrOptions)
      "event" "using_webvr_template" none (by decide)).2.1 (by decide),
   (trackingFunction_spec fAllow fAllow "UA-77033033-6" (some mrOptions)
      "event" "using_webvr_template" none (by decide)).2.2
     "MozillaResearch" rfl (by decide)⟩

/-- Claim C3: the one-shot guard around telemetry.start — the first call
runs the initialization body and consumes the guard; every later call,
with any flags and any configuration, leaves the whole state unchanged
(no script request, no tracker configuration, no change to the installed
performance API). -/
theorem start_onlyOnce (s : TState) (f f2 : Flags) (c c2 : Option Config)
    (h : s.startCalled = false) :
    telemetry.start f c s =
      { startBody f (c.getD {}) s with startCalled := true } ∧
    (telemetry.start f c s).startCalled = true ∧
    telemetry.start f2 c2 (telemetry.start f c s) = telemetry.start f c s := by
  have h1 : telemetry.start f c s =
      { startBody f (c.getD {}) s with startCalled := true } := by
    simp [telemetry.start, h]
  refine ⟨h1, ?_, ?_⟩
  · rw [h1]
  · rw [h1]
    simp [telemetry.start]

/-- Witness for C3: a first call on the load-time state followed by a
second call with different flags and configuration. -/
theorem start_onlyOnce_witness :
    telemetry.start fAllow none initState =
      { startBody fAllow {} initState with startCalled := true } ∧
    (telemetry.start fAllow none initState).startCalled = true ∧
    telemetry.start fDeny (some { analytics := true })
        (telemetry.start fAllow none initState) =
      telemetry.start fAllow none initState :=
  start_onlyOnce initState fAllow fDeny none (some { analytics := true }) rfl

/-- Claim C5: requesting performance without analytics leaves
telemetry.performance the default no-op pair: the only state change of the
call is consuming the guard, the installed API stays noop, and the noop
mark and measure do nothing with any arguments — being total functions
they cannot throw — and no tracker is ever constructed. -/
theorem start_performance_without_analytics (s : TState) (f f2 : Flags)
    (hp : HostPerf) (n a b : String)
    (h : s.startCalled = false) (hperf : s.perfAPI = PerfAPI.noop) :
    telemetry.start f (some { performance := true }) s =
      { s with startCalled := true } ∧
    (telemetry.start f (some { performance := true }) s).perfAPI =
      PerfAPI.noop ∧
    runMark PerfAPI.noop f2 hp n = hp ∧
    runMeasure PerfAPI.noop f2 hp n a b = (hp, none) := by
  have h1 : telemetry.start f (some { performance := true }) s =
      { s with startCalled := true } := by
    simp [telemetry.start, h, startBody]
  refine ⟨h1, ?_, rfl, rfl⟩
  rw [h1]
  simpa using hperf

/-- Witness for C5 on the load-time state. -/
theorem start_performance_without_analytics_witness :
    telemetry.start fAllow (some { performance := true }) initState =
      { initState with startCalled := true } ∧
    (telemetry.start fAllow (some { performance := true }) initState).perfAPI =
      PerfAPI.noop ∧
    runMark PerfAPI.noop fDeny hpEmpty "frame" = hpEmpty ∧
    runMeasure PerfAPI.noop fDeny hpEmpty "frame" "a" "b" = (hpEmpty, none) :=
  start_performance_without_analytics initState fAllow fDeny hpEmpty
    "frame" "a" "b" rfl rfl

/-- Claim C6: the load callback of setupErrorLogging, on a reported load
error, logs exactly one warning and never configures or installs Raven;
the same holds on a successful load with the Raven global absent. The
callback is a total function into outcomes, so no exception reaches the
caller of start. -/
theorem ravenCallback_spec (err : String) :
    ravenCallback (LoadResult.failure err) =
      { warnings := 1, ravenConfigured := false } ∧
    ravenCallback (LoadResult.success false) =
      { warnings := 1, ravenConfigured := false } :=
  ⟨rfl, rfl⟩

/-- Claim C7: the installed measure, called while Do-Not-Track holds,
leaves the host performance state untouched (no mark or measure recorded,
no entry read) and issues nothing to the analytics channel. -/
theorem measure_doNotTrack_noop (tr : Tracker) (f : Flags) (hp : HostPerf)
    (n a b : String) (h : doNotTrack f = true) :
    runMeasure (PerfAPI.installed tr) f hp n a b = (hp, none) := by
  simp [runMeasure, h]

/-- Witness for C7 with the tracker the source constructs and a denying
environment. -/
theorem measure_doNotTrack_noop_witness :
    doNotTrack fDeny = true ∧
    runMeasure (PerfAPI.installed (Tracker.bound (some "MozillaResearch")))
      fDeny hpEmpty "frame" "a" "b" = (hpEmpty, none) :=
  ⟨by decide,
   measure_doNotTrack_noop (Tracker.bound (some "MozillaResearch")) fDeny
     hpEmpty "frame" "a" "b" (by decide)⟩

/-- Recording a host measure appends exactly one matching entry to the
story of its name. -/
theorem getEntriesByName_hostMeasure (hp : HostPerf) (n a b : String) :
    getEntriesByName (hostMeasure hp n a b) n =
      getEntriesByName hp n ++
        [{ name := n, duration := hp.measureDuration n a b }] := by
  simp [getEntriesByName, hostMeasure, List.filter_append]

/-- Host performance story with one prior entry named n of duration 1 and
a host clock reporting 3 for the new measure. -/
def hpC8 : HostPerf :=
  { entries := [{ name := "n", duration := 1 }],
    measureDuration := fun _ _ _ => 3 }

/-- Claim C8 as frozen is false on the code: after the measure, the most
recently recorded entry named n has rounded duration 3, yet the issued
event carries value 1, the rounded duration of the oldest entry named n —
the source reads index 0 of getEntriesByName, the first entry, not the
most recent one. -/
theorem measure_most_recent_counterexample :
    ((getEntriesByName (runMeasure (PerfAPI.installed (Tracker.bound none))
        fAllow hpC8 "n" "a" "b").1 "n").getLast?.map
          (fun e => jsRound e.duration)) = some 3 ∧
    (runMeasure (PerfAPI.installed (Tracker.bound none))
        fAllow hpC8 "n" "a" "b").2 =
      some [GtagArg.str "event", GtagArg.str "n",
            GtagArg.obj { event_category := some "Performance",
                          value := some 1 }] ∧
    (runMeasure (PerfAPI.installed (Tracker.bound none))
        fAllow hpC8 "n" "a" "b").2 ≠
      some [GtagArg.str "event", GtagArg.str "n",
            GtagArg.obj { event_category := some "Performance",
                          value := some 3 }] := by
  have hd : doNotTrack fAllow = false := rfl
  have h1 : jsRound 1 = 1 := by norm_num [jsRound]
  have h3 : jsRound 3 = 3 := by norm_num [jsRound]
  refine ⟨?_, ?_, ?_⟩ <;>
    simp [runMeasure, hd, runTracker, mergeGroups, getEntriesByName,
          hostMeasure, hpC8, h1, h3]

/-- Claim C8 (amended): the installed measure, called while tracking is
allowed, records the host measure between the two named marks and forwards
through the bound tracker exactly one event named after the measure, with
category Performance and as value the rounded duration of the first
recorded entry of that name — index 0 of getEntriesByName, the oldest
entry, not the most recent one. -/
theorem measure_spec (groups : Option String) (f : Flags) (hp : HostPerf)
    (n a b : String) (h : doNotTrack f = false) :
    runMeasure (PerfAPI.installed (Tracker.bound groups)) f hp n a b =
      (hostMeasure hp n a b,
       some [GtagArg.str "event", GtagArg.str n,
             GtagArg.obj (mergeGroups groups
               { event_category := some "Performance",
                 value := some (jsRound
                   ((getEntriesByName (hostMeasure hp n a b) n).headD
                     { name := n, duration := 0 }).duration) })]) := by
  rcases hcase : getEntriesByName hp n with _ | ⟨e, rest⟩ <;>
    simp [runMeasure, h, runTracker, getEntriesByName_hostMeasure, hcase]

/-- Witness for C8 on the concrete story hpC8 with the tracker groups the
source uses. -/
theorem measure_spec_witness :
    doNotTrack fAllow = false ∧
    runMeasure (PerfAPI.installed (Tracker.bound (some "MozillaResearch")))
        fAllow hpC8 "n" "a" "b" =
      (hostMeasure hpC8 "n" "a" "b",
       some [GtagArg.str "event", GtagArg.str "n",
             GtagArg.obj (mergeGroups (some "MozillaResearch")
               { event_category := some "Performance",
                 value := some (jsRound
                   ((getEntriesByName (hostMeasure hpC8 "n" "a" "b") "n").headD
                     { name := "n", duration := 0 }).duration) })]) :=
  ⟨by decide,
   measure_spec (some "MozillaResearch") fAllow hpC8 "n" "a" "b" (by decide)⟩

/-- Claim C9 is right that the inserted element references the URL and
that the loader performs no privacy check, but the CORS configuration is
not achieved: the source assigns the all-lowercase JS property
crossorigin, an expando, while the fetch is controlled by the reflected
IDL attribute crossOrigin (JS property names are case-sensitive), so the
script is fetched as a classic request with no CORS mode. Evaluated at a
concrete URL; the last conjunct shows the insertion ignores any privacy
state by taking no flags at all. -/
theorem injectScript_crossOrigin_bug :
    getProp (injectScript "https://example.com/lib.js") "src" =
      some "https://example.com/lib.js" ∧
    getProp (injectScript "https://example.com/lib.js") "crossorigin" =
      some "anonymous" ∧
    effectiveCrossOrigin (injectScript "https://example.com/lib.js") = none ∧
    (∀ (s : TState) (src : String),
      (injectScriptS s src).scripts = s.scripts ++ [src]) := by
  refine ⟨by decide, by decide, by decide, fun s src => rfl⟩

/-- Claim C10: setupAnalytics runs at module load, before any start call;
while Do-Not-Track holds it changes nothing at all; otherwise it defines
window.dataLayer and window.gtag, pushes the initial js command onto the
data layer, and requests the gtag.js script, leaving the guard and the
performance API untouched. -/
theorem setupAnalytics_spec (f : Flags) (s : TState) :
    (doNotTrack f = true → setupAnalytics f s = s) ∧
    (doNotTrack f = false →
      (setupAnalytics f s).gtagDefined = true ∧
      (setupAnalytics f s).dataLayer =
        some (s.dataLayer.getD [] ++ [[GtagArg.str "js", GtagArg.date]]) ∧
      (setupAnalytics f s).scripts = s.scripts ++ [gtagScriptUrl] ∧
      (setupAnalytics f s).startCalled = s.startCalled ∧
      (setupAnalytics f s).perfAPI = s.perfAPI) := by
  constructor
  · intro h
    simp [setupAnalytics, h]
  · intro h
    simp [setupAnalytics, h, windowGtag, injectScriptS]

/-- Witness for C10 on the load-time state under both environments. -/
theorem setupAnalytics_spec_witness :
    (setupAnalytics fDeny initState = initState) ∧
    ((setupAnalytics fAllow initState).gtagDefined = true ∧
     (setupAnalytics fAllow initState).dataLayer =
       some [[GtagArg.str "js", GtagArg.date]] ∧
     (setupAnalytics fAllow initState).scripts = [gtagScriptUrl] ∧
     (setupAnalytics fAllow initState).startCalled = false ∧
     (setupAnalytics fAllow initState).perfAPI = PerfAPI.noop) :=
  ⟨(setupAnalytics_spec fDeny initState).1 (by decide),
   (setupAnalytics_spec fAllow initState).2 (by decide)⟩
